import Mathlib

/-!
Verification of the rag-foundation backend core: cost engine, ingestion state
machine, watchdog sweep and streaming chat orchestrator, shallowly embedded
from the Python sources (backend/app/costs.py, config.py, models.py,
worker.py, services/ingestion.py, routes/chat.py).

Money is modelled exactly: Python computes prices via Decimal built from the
short decimal string of each float, so every value that appears is a rational
number and Decimal arithmetic on them is exact rational arithmetic at the
sizes that occur (token counts far below 10^15, price mantissas of a few
digits, well within the 28 significant digits of the default Decimal
context). Costs quantized to six decimal places are represented as integer
micro-dollars.
-/

namespace RagFoundation

/-! ## String primitives

Python string operations are modelled on the character list of the Lean
string, so that all of them evaluate by kernel reduction: `str.lower`,
`str.startswith`, slicing `s[:n]`, `str.strip`, `len` and `"".join`. -/

def pyLower (s : String) : String := String.mk (s.data.map Char.toLower)

def pyStartsWith (s p : String) : Bool := decide (s.data.take p.data.length = p.data)

def pyTake (s : String) (n : ℕ) : String := String.mk (s.data.take n)

def pyTrim (s : String) : String :=
  String.mk (((s.data.dropWhile Char.isWhitespace).reverse.dropWhile Char.isWhitespace).reverse)

def pyLen (s : String) : ℕ := s.data.length

def pyJoin (l : List String) : String := String.mk (l.map (·.data)).flatten

/-! ## Cost engine: pricing resolution (costs.py `_resolve_model_rates`) -/

/-- One entry of settings.MODEL_PRICING: any of the three price fields may be
absent (`None`/missing key in the Python dict). -/
structure PriceEntry where
  input_price : Option ℚ
  output_price : Option ℚ
  index_price : Option ℚ
deriving Repr, DecidableEq

/-- The empty dict used when no entry matches (`rates = {}` in the source). -/
def PriceEntry.empty : PriceEntry := ⟨none, none, none⟩

/-- `settings.MODEL_PRICING` is a Python dict; we model it as an
insertion-ordered association list, matching dict iteration order. -/
abbrev PricingTable := List (String × PriceEntry)

/-- Settings fields consumed by `_resolve_model_rates` and the chat budget
check. The `override_*` flags model `_explicit_override(...)` for the
corresponding `PRICE_PER_MTOK_*` field: true iff the field was explicitly
set, or the environment variable or its `_FILE` sibling is present. -/
structure CostSettings where
  MODEL_PRICING : PricingTable
  PRICE_PER_MTOK_INPUT : ℚ
  PRICE_PER_MTOK_OUTPUT : ℚ
  PRICE_PER_MTOK_INDEX : ℚ
  override_input : Bool
  override_output : Bool
  override_index : Bool
  BUDGET_HOLD_USD : ℚ
  DEFAULT_MODEL : String
deriving Repr

/-- Dict lookup `mp.get(k)` on the association list. -/
def lookupEntry (mp : PricingTable) (k : String) : Option PriceEntry :=
  (mp.find? (fun kv => kv.1 = k)).map (·.2)

/-- The loop of `_resolve_model_rates` that scans `mp.items()` keeping the
longest key other than `"default"` that the model string starts with; a
strictly longer key replaces the current best (`len(k) > len(best_key)`),
ties keep the earlier key. -/
def bestMatchGo (key : String) : PricingTable → Option (String × PriceEntry) →
    Option (String × PriceEntry)
  | [], best => best
  | kv :: rest, best =>
      bestMatchGo key rest
        (if kv.1 = "default" then best
         else if pyStartsWith key kv.1 then
           match best with
           | none => some kv
           | some b => if pyLen b.1 < pyLen kv.1 then some kv else best
         else best)

def bestMatchKV (mp : PricingTable) (key : String) : Option (String × PriceEntry) :=
  bestMatchGo key mp none

/-- The `rates` dict selected by `_resolve_model_rates`: exact key first,
otherwise the longest non-default key the model starts with, otherwise the
empty dict. (`model_key` is the stripped model string; the empty string is
falsy in Python, so both lookups are skipped for it.) -/
def selectedRates (mp : PricingTable) (modelKey : String) : PriceEntry :=
  if modelKey ≠ "" then
    match lookupEntry mp modelKey with
    | some e => e
    | none => ((bestMatchKV mp modelKey).map (·.2)).getD PriceEntry.empty
  else PriceEntry.empty

/-- `_pick(rate_key)`: matched entry value if present and non-None; else the
default entry value provided no explicit override exists for the setting;
else the setting value itself. -/
def pickRate (rates defaultRates : PriceEntry) (sel : PriceEntry → Option ℚ)
    (overrideSet : Bool) (settingValue : ℚ) : ℚ :=
  match sel rates with
  | some v => v
  | none =>
      match sel defaultRates, overrideSet with
      | some v, false => v
      | _, _ => settingValue

/-- Resolved prices for a model (costs.py `_resolve_model_rates`). The input
model is optional (`model: str | None`); `(model or "").strip()` is modelled
with `pyTrim`. -/
structure ResolvedRates where
  input_price : ℚ
  output_price : ℚ
  index_price : ℚ
deriving Repr, DecidableEq

def resolve_model_rates (s : CostSettings) (model : Option String) : ResolvedRates :=
  let modelKey := pyTrim (model.getD "")
  let rates := selectedRates s.MODEL_PRICING modelKey
  let defaultRates := (lookupEntry s.MODEL_PRICING "default").getD PriceEntry.empty
  { input_price :=
      pickRate rates defaultRates (·.input_price) s.override_input s.PRICE_PER_MTOK_INPUT
    output_price :=
      pickRate rates defaultRates (·.output_price) s.override_output s.PRICE_PER_MTOK_OUTPUT
    index_price :=
      pickRate rates defaultRates (·.index_price) s.override_index s.PRICE_PER_MTOK_INDEX }

/-! ## Cost engine: quantization and query cost (costs.py `_quantize`,
`calc_query_cost`, `calc_index_cost`) -/

/-- `ROUND_HALF_UP` of a rational to an integer: round to nearest, ties away
from zero. -/
def halfUpZ (x : ℚ) : ℤ :=
  if 0 ≤ x then ⌊x + 1/2⌋ else -⌊-x + 1/2⌋

/-- `_quantize(value)` with the result expressed in micro-dollars: quantize
to six decimal places half-up and floor a strictly positive value that
rounded to zero up to one micro-dollar (`COST_PRECISION`). -/
def quantizeMicro (v : ℚ) : ℤ :=
  let q := halfUpZ (v * 1000000)
  if 0 < v ∧ q = 0 then 1 else q

/-- Dollar value of an integer micro-dollar amount. -/
def microToUsd (m : ℤ) : ℚ := (m : ℚ) / 1000000

/-- `QueryCostResult` with the two quantized component costs in
micro-dollars. -/
structure QueryCostResult where
  model : String
  prompt_tokens : ℤ
  completion_tokens : ℤ
  prompt_cost_micro : ℤ
  completion_cost_micro : ℤ
deriving Repr, DecidableEq

/-- The `total_cost_usd` property: `_quantize(prompt_cost_usd +
completion_cost_usd)`, in micro-dollars. -/
def QueryCostResult.total_cost_micro (r : QueryCostResult) : ℤ :=
  quantizeMicro (microToUsd r.prompt_cost_micro + microToUsd r.completion_cost_micro)

/-- `calc_query_cost(model, prompt_tokens, completion_tokens)`; `None` token
counts become 0 and negatives are clamped (`max(x or 0, 0)`). -/
def calc_query_cost (s : CostSettings) (model : String)
    (prompt_tokens completion_tokens : Option ℤ) : QueryCostResult :=
  let pt := max (prompt_tokens.getD 0) 0
  let ct := max (completion_tokens.getD 0) 0
  let rates := resolve_model_rates s (some model)
  { model := model
    prompt_tokens := pt
    completion_tokens := ct
    prompt_cost_micro := quantizeMicro ((pt : ℚ) / 1000000 * rates.input_price)
    completion_cost_micro := quantizeMicro ((ct : ℚ) / 1000000 * rates.output_price) }

/-- `calc_index_cost(tokens, model)`: index cost in micro-dollars. -/
def calc_index_cost (s : CostSettings) (tokens : Option ℤ) (model : Option String) : ℤ :=
  let tok := max (tokens.getD 0) 0
  let rates := resolve_model_rates s (some (model.getD s.DEFAULT_MODEL))
  quantizeMicro ((tok : ℚ) / 1000000 * rates.index_price)

/-! ## Cost engine: token estimation (costs.py `estimate_tokens_from_bytes`) -/

/-- `estimate_tokens_from_bytes(n_bytes, mime_type)`. An absent or empty MIME
string is falsy in Python, so it falls through to the text heuristic. The
audio branch computes `int((n_bytes / (1024 * 1024)) * 10000)`: division by
the power of two is exact in binary floating point and the product is
exactly representable for sizes below 2^53 / 10^4 bytes, so it is modelled
as exact floor division. -/
def estimate_tokens_from_bytes (n_bytes : ℤ) (mime_type : Option String) : ℤ :=
  if n_bytes ≤ 0 then 0
  else
    let mt := pyLower (mime_type.getD "")
    if mt ≠ "" ∧ pyStartsWith mt "image/" then 1200
    else if mt ≠ "" ∧ pyStartsWith mt "audio/" then
      max 1000 (Int.fdiv (n_bytes * 10000) (1024 * 1024))
    else max 0 (Int.fdiv n_bytes 4)

/-! ## Cost engine: budget (costs.py `user_budget`, `mtd_spend`,
`would_exceed_budget`) -/

/-- `would_exceed_budget(db, user_id, add_cost)` with the two database reads
abstracted to their results: `limit` is the monthly limit of the budget row if
one exists, `spend` is the month-to-date sum of QueryLog costs. -/
def would_exceed_budget (limit : Option ℚ) (spend add_cost : ℚ) : Bool :=
  match limit with
  | none => false
  | some l => decide (spend + add_cost > l)

/-! ## Shipped configuration (config.py `DEFAULT_MODEL_PRICING` and the
settings defaults relevant to pricing and budget) -/

def defaultModelPricing : PricingTable :=
  [ ("gemini-3.0-pro-thinking", ⟨some 2, some 12, some (15/10000)⟩)
  , ("gemini-3-pro-preview", ⟨some 2, some 12, some (15/10000)⟩)
  , ("gemini-2.5-pro", ⟨some (125/100), some 10, some (15/10000)⟩)
  , ("gemini-2.0-pro", ⟨some 1, some 5, some (15/10000)⟩)
  , ("gemini-1.5-pro", ⟨some (125/100), some 5, some (15/10000)⟩)
  , ("gemini-2.5-flash", ⟨some (3/10), some (25/10), some (15/10000)⟩)
  , ("gemini-2.5-flash-lite", ⟨some (1/10), some (4/10), some (15/10000)⟩)
  , ("gemini-2.0-flash", ⟨some (1/10), some (4/10), some (15/10000)⟩)
  , ("gemini-1.5-flash", ⟨some (75/1000), some (3/10), some (15/10000)⟩)
  , ("default", ⟨some (3/10), some (25/10), some (15/10000)⟩) ]

/-- The default settings instance: shipped pricing table, the
`PRICE_PER_MTOK_*` defaults, no explicit overrides, `BUDGET_HOLD_USD = 0.05`
and `DEFAULT_MODEL = "gemini-2.5-flash"`. -/
def defaultSettings : CostSettings :=
  { MODEL_PRICING := defaultModelPricing
    PRICE_PER_MTOK_INPUT := 3/10
    PRICE_PER_MTOK_OUTPUT := 25/10
    PRICE_PER_MTOK_INDEX := 15/10000
    override_input := false
    override_output := false
    override_index := false
    BUDGET_HOLD_USD := 5/100
    DEFAULT_MODEL := "gemini-2.5-flash" }

/-! ## Data model (models.py `DocumentStatus`, `Document`, `Store`)

Timestamps are modelled as integer seconds since the epoch (UTC); every
mutation receives the current time explicitly. -/

inductive DocumentStatus | PENDING | RUNNING | DONE | ERROR
deriving Repr, DecidableEq

structure StoreRow where
  id : ℤ
  user_id : ℤ
  fs_name : String
  deleted_at : Option ℤ
deriving Repr, DecidableEq

structure Doc where
  id : ℤ
  store_id : ℤ
  filename : String
  display_name : Option String
  size_bytes : ℤ
  status : DocumentStatus
  status_updated_at : Option ℤ
  op_name : Option String
  gemini_file_id : Option String
  last_error : Option String
  deleted_at : Option ℤ
  created_at : ℤ
deriving Repr, DecidableEq

/-- `Document.set_status`: write the status and stamp `status_updated_at`
with the current UTC time. -/
def Doc.set_status (d : Doc) (st : DocumentStatus) (now : ℤ) : Doc :=
  { d with status := st, status_updated_at := some now }

/-- `Document.touch_status`: bump `status_updated_at` without changing the
status. -/
def Doc.touch_status (d : Doc) (now : ℤ) : Doc :=
  { d with status_updated_at := some now }

/-! ## Watchdog (worker.py `reset_stuck_documents`)

The SQL query joins each RUNNING document to its store; we model the joined
rows as pairs. `cutoff = now - WATCHDOG_TTL_MINUTES minutes` and the filter
compares `coalesce(status_updated_at, created_at) < cutoff` strictly. -/

/-- The WHERE clause of the watchdog query for one joined (document, store)
row. -/
def watchdogMatches (now ttlMinutes : ℤ) (d : Doc) (s : StoreRow) : Bool :=
  d.status = DocumentStatus.RUNNING
    ∧ (d.status_updated_at.getD d.created_at) < now - ttlMinutes * 60
    ∧ s.deleted_at = none
    ∧ d.deleted_at = none

/-- The per-row update applied to every matching document: `set_status(ERROR)`
and `op_name = None`. Non-matching rows are untouched. -/
def resetStuckOne (now ttlMinutes : ℤ) (d : Doc) (s : StoreRow) : Doc :=
  if watchdogMatches now ttlMinutes d s then
    { d.set_status DocumentStatus.ERROR now with op_name := none }
  else d

/-- `reset_stuck_documents` over the full table of joined rows. -/
def reset_stuck_documents (now ttlMinutes : ℤ) (rows : List (Doc × StoreRow)) : List Doc :=
  rows.map (fun r => resetStuckOne now ttlMinutes r.1 r.2)

/-! ## Ingestion state machine (services/ingestion.py `run_ingestion_sync`)

The database is the set of Document and Store rows; the RAG client and the
clock are abstracted into an environment that records what each external
call would return. Exceptions are modelled as control flow: every `raise`
that the source catches is a branch here, and the outer `except Exception`
handler is the explicit fallback of the branches that reach it. -/

/-- Python truthiness of an optional string: `None` and `""` are falsy. -/
def optStrTruthy : Option String → Bool
  | none => false
  | some s => s ≠ ""

/-- `_sanitize_error`: path redaction (the `re.sub` call, taken as a
parameter `redact` of the whole model) followed by truncation to 500
characters. -/
def sanitizeError (redact : String → String) (msg : String) : String :=
  pyTake (redact msg) 500

/-- Outcome of `rag.upload_file` after the tenacity retries of
`_upload_file_with_retry`: either a result object or a reraised
exception. -/
inductive UploadOutcome
  | ok (operation_name : Option String) (file_id : Option String)
  | raises (msg : String)
deriving Repr, DecidableEq

/-- Outcome of one `rag.op_status` call inside the poll loop: a status
payload or a transient exception (which the loop retries). -/
inductive PollResult
  | ok (done : Bool) (error : Option String)
  | raises (msg : String)
deriving Repr, DecidableEq

/-- Environment of one ingestion run. `pollFuel` is the number of times the
poll loop may run before the elapsed-time check at the top of the loop
exceeds `GEMINI_INGESTION_TIMEOUT_S`; `elapsedStr` is the formatted elapsed
seconds interpolated into the `TimeoutError` message. `recovered_file_id`
is the file id extracted from the one recovery poll when the upload response
omitted it (`none` covers both an empty extraction and the defensive
`except` around that poll). -/
structure IngestEnv where
  upload : UploadOutcome
  recovered_file_id : Option String
  pollFuel : ℕ
  polls : ℕ → PollResult
  elapsedStr : String

inductive WaitOutcome
  | success
  | failed (msg : String)
  | timedOut
deriving Repr, DecidableEq

/-- `_wait_for_operation_completion`: poll until an `error` field (truthy)
fails the loop, `done` succeeds it, or the time budget runs out; transient
exceptions are retried with backoff. The error message raised is
`stat.get("error") or "Gemini ingestion failed"`, and since the field is
truthy it is the field itself. -/
def waitGo (polls : ℕ → PollResult) : ℕ → ℕ → WaitOutcome
  | 0, _ => .timedOut
  | fuel + 1, i =>
      match polls i with
      | .raises _ => waitGo polls fuel (i + 1)
      | .ok done err =>
          if optStrTruthy err then .failed (err.getD "")
          else if done then .success
          else waitGo polls fuel (i + 1)

def wait_for_operation_completion (env : IngestEnv) : WaitOutcome :=
  waitGo env.polls env.pollFuel 0

/-- Externally visible side effects of one ingestion run. `remote_deletes`
records each `rag.delete_document_from_store(fs_name, doc_id, filename,
file_id)` call; `index_cost_logged` is the `(tokens, cost)` QueryLog row of
`_log_index_cost` when it inserts one. -/
structure IngestEffects where
  upload_calls : ℕ
  remote_deletes : List (String × ℤ × String × Option String)
  index_cost_logged : Option (ℤ × ℤ)
  temp_file_cleanup : Bool
deriving Repr, DecidableEq

def IngestEffects.base : IngestEffects :=
  { upload_calls := 0, remote_deletes := [], index_cost_logged := none,
    temp_file_cleanup := true }

structure IngestDB where
  docs : List Doc
  stores : List StoreRow
deriving Repr

/-- The tail of `run_ingestion_sync` once an operation name is known to be
truthy: poll to completion and write DONE or ERROR; on DONE, `_log_index_cost`
inserts a QueryLog row when the index cost is positive. -/
def ingestPollPhase (cs : CostSettings) (redact : String → String) (now : ℤ)
    (env : IngestEnv) (doc : Doc) (uploads : ℕ) : Option Doc × IngestEffects :=
  match wait_for_operation_completion env with
  | .success =>
      let doc' := ({ doc with last_error := none }).set_status .DONE now
      let toks := estimate_tokens_from_bytes doc'.size_bytes none
      let cost := calc_index_cost cs (some toks) none
      (some doc',
        { IngestEffects.base with
            upload_calls := uploads
            index_cost_logged := if cost ≤ 0 then none else some (toks, cost) })
  | .failed e =>
      let doc' := ({ doc with last_error := some (sanitizeError redact e) }).set_status .ERROR now
      (some doc', { IngestEffects.base with upload_calls := uploads })
  | .timedOut =>
      let msg := "Ingestion timed out after " ++ env.elapsedStr ++ "s"
      let doc' := ({ doc with last_error := some (sanitizeError redact msg) }).set_status .ERROR now
      (some doc', { IngestEffects.base with upload_calls := uploads })

/-- The outer `except Exception` handler: best-effort compensating remote
delete iff a truthy uploaded file id was recorded in this run, then mark the
document ERROR with the sanitized exception text. -/
def ingestOuterHandler (redact : String → String) (now : ℤ) (store : StoreRow)
    (doc : Doc) (uploaded : Option String) (msg : String) (uploads : ℕ) :
    Option Doc × IngestEffects :=
  let deletes :=
    if optStrTruthy uploaded then [(store.fs_name, doc.id, doc.filename, uploaded)] else []
  let doc' := ({ doc with last_error := some (sanitizeError redact msg) }).set_status .ERROR now
  (some doc', { IngestEffects.base with upload_calls := uploads, remote_deletes := deletes })

/-- `run_ingestion_sync(store_id, document_id, local_path)`. Returns the
final state of the targeted document row (`none` when no row has that id)
together with the side effects of the run; the local temp file is removed in the
`finally` block on every path. -/
def run_ingestion_sync (cs : CostSettings) (redact : String → String)
    (store_id document_id now : ℤ) (db : IngestDB) (env : IngestEnv) :
    Option Doc × IngestEffects :=
  match db.docs.find? (fun d => d.id = document_id) with
  | none => (none, IngestEffects.base)
  | some doc0 =>
    if doc0.deleted_at ≠ none then (some doc0, IngestEffects.base)
    else
      match db.stores.find? (fun st => st.id = store_id) with
      | none =>
          (some (({ doc0 with last_error := some "Store missing or deleted" }).set_status .ERROR now),
           IngestEffects.base)
      | some store =>
        if store.deleted_at ≠ none ∨ store.id ≠ doc0.store_id then
          (some (({ doc0 with last_error := some "Store missing or deleted" }).set_status .ERROR now),
           IngestEffects.base)
        else if doc0.status = .DONE ∧ ¬ optStrTruthy doc0.op_name then
          (some doc0, IngestEffects.base)
        else if optStrTruthy doc0.op_name ∧ (doc0.status = .RUNNING ∨ doc0.status = .DONE) then
          (some (doc0.touch_status now), IngestEffects.base)
        else if doc0.status = .RUNNING then
          (some doc0, IngestEffects.base)
        else
          let doc1 := ({ doc0 with last_error := none }).set_status .RUNNING now
          if ¬ optStrTruthy doc1.op_name then
            match env.upload with
            | .raises msg =>
                -- upload reraised after retries: no file id persisted, so the
                -- outer handler performs no remote delete
                ingestOuterHandler redact now store doc1 none msg 1
            | .ok opn fid =>
                let opName :=
                  if optStrTruthy opn ∧ pyLen (opn.getD "") > 255
                  then some (pyTake (opn.getD "") 255) else opn
                let doc2 := { doc1 with op_name := opName }
                let step :=
                  if optStrTruthy fid ∧ ¬ optStrTruthy doc2.gemini_file_id then
                    let f := fid.getD ""
                    let f' := if pyLen f > 255 then pyTake f 255 else f
                    ({ doc2 with gemini_file_id := some f' }, some f')
                  else if ¬ optStrTruthy fid then
                    match env.recovered_file_id with
                    | some r =>
                        let f' := pyTake r 255
                        ({ doc2 with gemini_file_id := some f' }, some f')
                    | none => (doc2, (none : Option String))
                  else (doc2, (none : Option String))
                let doc3 := step.1
                let uploaded := step.2
                if ¬ optStrTruthy opName then
                  ingestOuterHandler redact now store doc3 uploaded
                    "Gemini ingestion did not return an operation name" 1
                else
                  ingestPollPhase cs redact now env doc3 1
          else
            -- op_name already recorded (status PENDING or ERROR): skip the
            -- upload and poll the existing operation
            ingestPollPhase cs redact now env doc1 0

/-! ## Streaming chat orchestrator (routes/chat.py `chat_stream`)

The pre-stream synchronous phase runs before any byte of the response is
produced; it either raises an `HTTPException` (modelled as an error result
carrying the status code and detail, with the session rolled back so nothing
is persisted) or hands an established context to the SSE generator. The
question/history merge of lines 374-397 is abstracted to its result (the
resolved question string), which no verified claim depends on. -/

def MAX_QUESTION_LENGTH : ℕ := 32000

def allowedModels : List String :=
  [ "gemini-2.5-flash", "gemini-2.5-pro", "gemini-3.0-pro-thinking",
    "gemini-2.0-flash", "gemini-2.0-pro", "gemini-1.5-pro", "gemini-1.5-flash" ]

/-- `_estimate_tokens_from_text`: empty is 0 tokens, otherwise at least one,
four characters per token. -/
def estimate_tokens_from_text (t : String) : ℤ :=
  if t = "" then 0 else max 1 ((pyLen t : ℤ) / 4)

/-- `_sanitize_session_id`: a falsy input becomes a fresh uuid (modelled by
the `fresh` parameter); otherwise strip, falling back to a fresh uuid when
blank, then truncate to 64 characters. -/
def sanitize_session_id (fresh : String) : Option String → String
  | none => fresh
  | some raw =>
      if raw = "" then fresh
      else
        let stripped := pyTrim raw
        pyTake (if stripped = "" then fresh else stripped) 64

/-- A `ChatSession` row as read by `_ensure_chat_session`. The `user_id`
column is an integer in the real schema, so the `isinstance(existing_user_id,
int)` guard of the source always holds here. -/
structure SessionRow where
  user_id : ℤ
  store_id : Option ℤ
  title : Option String
deriving Repr, DecidableEq

/-- Inputs of the pre-stream phase of one chat request, with the database reads
and the collaborator checks abstracted to their results: `storesOk` is
whether `require_stores_owned_by_user` accepts the requested store ids,
`question` is the resolved question after the history merge and fallbacks,
`userTextOverride` is the last user-role message extracted from the client
payload (falsy when absent), and `limit`/`spend` are the budget row and
month-to-date spend. -/
structure ChatInput where
  userId : ℤ
  rawSessionId : Option String
  freshSessionId : String
  sessions : List (String × SessionRow)
  storesOk : Bool
  storeIdForHistory : Option ℤ
  question : Option String
  userTextOverride : Option String
  rateLimitOk : Bool
  projectIdOk : Bool
  tagsOk : Bool
  metadataOk : Bool
  modelRequested : Option String
  limit : Option ℚ
  spend : ℚ
deriving Repr

/-- Context established by a successful pre-stream phase. -/
structure PreOk where
  sessionId : String
  model : String
  promptToksEst : ℤ
  remaining : Option ℚ
  persistedUser : List (String × String)
deriving Repr, DecidableEq

/-- The pre-stream phase of `chat_stream` (lines 360-489), in source order:
tenant check, question checks, rate limit, projectId/tags/metadata
validation, model allow-list, budget pre-check with the configured hold,
prompt-cost check, session ownership check, then the user-message persist.
An error result models the raised `HTTPException` after `db.rollback()`. -/
def chatPreStream (cs : CostSettings) (inp : ChatInput) : Except (ℕ × String) PreOk :=
  let sessionId := sanitize_session_id inp.freshSessionId inp.rawSessionId
  if ¬ inp.storesOk then .error (404, "Store not found")
  else if ¬ optStrTruthy inp.question then .error (400, "Missing question")
  else
    let q := inp.question.getD ""
    if pyLen q > MAX_QUESTION_LENGTH then .error (400, "Question too long")
    else if ¬ inp.rateLimitOk then .error (429, "Rate limit exceeded")
    else if ¬ inp.projectIdOk then .error (400, "projectId must be an integer")
    else if ¬ inp.tagsOk then .error (400, "tags must be an object")
    else if ¬ inp.metadataOk then .error (400, "metadataFilter rejected")
    else
      let model :=
        if optStrTruthy inp.modelRequested then inp.modelRequested.getD ""
        else cs.DEFAULT_MODEL
      if model ∉ allowedModels then .error (400, "Unsupported model requested")
      else
        let budgetStep : Except (ℕ × String) (Option ℚ) :=
          match inp.limit with
          | none => .ok none
          | some l =>
              let remaining0 := max 0 (l - inp.spend)
              if remaining0 ≤ 0 then .error (402, "Monthly budget exhausted")
              else if cs.BUDGET_HOLD_USD > 0 then
                if remaining0 ≤ cs.BUDGET_HOLD_USD then
                  .error (402, "Monthly budget exhausted")
                else .ok (some (remaining0 - cs.BUDGET_HOLD_USD))
              else .ok (some remaining0)
        match budgetStep with
        | .error e => .error e
        | .ok remaining =>
            let ptEst := estimate_tokens_from_text q
            let promptCost :=
              microToUsd (calc_query_cost cs model (some ptEst) (some 0)).total_cost_micro
            if remaining.elim false (fun r => decide (promptCost > r)) then
              .error (402, "Monthly budget exhausted")
            else
              -- `_ensure_chat_session`: an existing session owned by a
              -- different user raises 404; otherwise the session row is
              -- updated or created and the user message is persisted
              if (inp.sessions.find? (fun kv => kv.1 = sessionId)).elim false
                  (fun kv => decide (kv.2.user_id ≠ inp.userId)) then
                .error (404, "Session not found")
              else
                let userText :=
                  if optStrTruthy inp.userTextOverride then inp.userTextOverride.getD ""
                  else q
                .ok { sessionId := sessionId, model := model, promptToksEst := ptEst,
                      remaining := remaining,
                      persistedUser :=
                        if userText = "" then [] else [("user", userText)] }

/-! ## Streaming chat orchestrator: the SSE generator (chat.py lines 491-831)

Frames are modelled structurally rather than as JSON text. The model fixes
the timing-dependent aspects outside any claim: the client stays connected
(`req.is_disconnected()` is false every cycle, so the disconnect and
keepalive branches do not fire) and the chunk queue never overflows. Each
`ask_stream` attempt is scripted as the chunks the producer thread delivers
followed by how the attempt ends. -/

inductive PyErr
  | nameError (name : String)
deriving Repr, DecidableEq

inductive SseEvent
  | startFrame (messageId : String)
  | textStart (id : String)
  | textDelta (id : String) (delta : String)
  | textEnd (id : String)
  | sourceDoc (idx : ℕ)
  | errorFrame (code : String) (message : String) (statusCode : Option ℕ)
  | finish (promptToks complToks : ℤ)
  | doneSentinel
deriving Repr, DecidableEq

/-- One chunk object yielded by `rag.ask_stream`: its `text` attribute, its
`candidates` truthiness (a chunk with candidates becomes `final_resp`), the
usage metadata reachable from it, and the number of citations
`extract_citations_from_response` would return for it. -/
structure Chunk where
  text : Option String
  hasCandidates : Bool
  usage : Option (Option ℤ × Option ℤ)
  numCitations : ℕ
deriving Repr, DecidableEq

inductive AttemptEnd
  | completed
  | retryable (msg : String)
  | fatal (msg : String)
deriving Repr, DecidableEq

structure Attempt where
  chunks : List Chunk
  ending : AttemptEnd
deriving Repr

/-- Environment of one generator execution. `limitAtEnd`/`spendAtEnd` are the
budget row and month-to-date spend read back by the post-stream
`would_exceed_budget` re-check. -/
structure StreamEnv where
  semAcquireOk : Bool
  messageId : String
  textId : String
  attempts : ℕ → Attempt
  maxRetries : ℕ
  limitAtEnd : Option ℚ
  spendAtEnd : ℚ

/-- Evaluation of the f-string payload of the start frame (chat.py line 534).
`request_id` is a free variable of `generator`: it is assigned nowhere in
`chat_stream`, nowhere at module scope in routes/chat.py, and it is not a
builtin, so CPython raises `NameError` when this payload is evaluated. -/
def startFrameEval (messageId : String) : Except PyErr SseEvent :=
  .error (.nameError "request_id")

/-- Mutable state of the retry/consume loop (lines 539-679). -/
structure LoopState where
  frames : List SseEvent
  asks : ℕ
  retryCount : ℕ
  streamFailed : Bool
  budgetExhausted : Bool
  errorSent : Bool
  lastErrorCode : Option String
  parts : List String
  completionToks : ℤ
  finalResp : Option Chunk
deriving Repr

def LoopState.initial : LoopState :=
  { frames := [], asks := 0, retryCount := 0, streamFailed := false,
    budgetExhausted := false, errorSent := false, lastErrorCode := none,
    parts := [], completionToks := 0, finalResp := none }

/-- `_send_error` guarded by `if not error_sent`: emit the error frame and
record its code once per stream. -/
def sendErrorOnce (st : LoopState) (code message : String) (statusCode : ℕ) : LoopState :=
  if st.errorSent then st
  else
    { st with
        frames := st.frames ++ [.errorFrame code message (some statusCode)]
        errorSent := true
        lastErrorCode := some code }

/-- The consumer loop body for the chunks of one attempt (lines 570-623):
on each truthy text delta accumulate the completion-token estimate, apply
the mid-stream budget circuit breaker when a budget was established, emit
the delta, and remember any chunk carrying candidates. A budget break stops
consuming. -/
def consumeChunks (cs : CostSettings) (model textId : String)
    (remaining : Option ℚ) (promptToks : ℤ) : List Chunk → LoopState → LoopState
  | [], st => st
  | c :: rest, st =>
      let stepped : LoopState × Bool :=
        match c.text with
        | some t =>
            if t ≠ "" then
              let toks := st.completionToks + estimate_tokens_from_text t
              let st1 := { st with completionToks := toks }
              let overBudget :=
                match remaining with
                | some r =>
                    decide (microToUsd (calc_query_cost cs model (some promptToks)
                      (some toks)).total_cost_micro > r)
                | none => false
              if overBudget then
                ({ sendErrorOnce st1 "budget_exceeded" "Monthly budget exceeded" 402 with
                    budgetExhausted := true }, true)
              else
                ({ st1 with
                    frames := st1.frames ++ [.textDelta textId t]
                    parts := st1.parts ++ [t] }, false)
            else (st, false)
        | none => (st, false)
      let st2 :=
        if stepped.2 then stepped.1
        else if c.hasCandidates then { stepped.1 with finalResp := some c }
        else stepped.1
      if stepped.2 then st2
      else consumeChunks cs model textId remaining promptToks rest st2

/-- The `while retry_count <= max_retries` attempt loop (lines 539-679). The
fuel counts the remaining permitted iterations; every iteration that does
not break increments `retry_count`, so `maxRetries + 1` fuel is exact. -/
def attemptLoop (cs : CostSettings) (model textId : String) (remaining : Option ℚ)
    (promptToks : ℤ) (attempts : ℕ → Attempt) (maxRetries : ℕ) :
    ℕ → ℕ → LoopState → LoopState
  | 0, _, st => st
  | fuel + 1, i, st =>
      let a := attempts i
      let st1 := consumeChunks cs model textId remaining promptToks a.chunks
        { st with asks := st.asks + 1 }
      if st1.budgetExhausted then st1
      else
        match a.ending with
        | .completed => st1
        | .retryable _ =>
            let rc := st1.retryCount + 1
            if rc > maxRetries then
              { sendErrorOnce st1 "upstream_unavailable"
                  "Service temporarily unavailable. Please try again." 503 with
                retryCount := rc, streamFailed := true }
            else
              attemptLoop cs model textId remaining promptToks attempts maxRetries
                fuel (i + 1) { st1 with retryCount := rc }
        | .fatal _ =>
            { sendErrorOnce st1 "unexpected_error"
                "An error occurred processing your request. Please try again." 500 with
              streamFailed := true }

/-- Result of one generator execution: the frames put on the wire before the
generator finished or blew up, the number of `ask_stream` calls, the chat
messages persisted, the QueryLog rows written (cost in micro-dollars with an
optional error-code tag) and the exception escaping the generator, if
any. -/
structure GenOutput where
  frames : List SseEvent
  askStreamCalls : ℕ
  persisted : List (String × String)
  queryLogs : List (ℤ × Option String)
  exc : Option PyErr
deriving Repr, DecidableEq

/-- Python `x or y` on an optional integer count (0 is falsy). -/
def orFalsyInt (v : Option ℤ) (fallback : ℤ) : ℤ :=
  match v with
  | some n => if n ≠ 0 then n else fallback
  | none => fallback

/-- The generator body (lines 521-831): semaphore acquisition with the
capacity error path, the start frames, the retry/consume loop, the
failure/budget epilogues, citations, usage reconciliation, definitive cost
logging and post-hoc budget re-check, and the terminal sentinel. The first
start frame is where the unbound `request_id` is evaluated. -/
def generatorRun (cs : CostSettings) (env : StreamEnv) (remaining : Option ℚ)
    (promptToksEst : ℤ) (model : String) : GenOutput :=
  if ¬ env.semAcquireOk then
    { frames := [.errorFrame "stream_capacity_exceeded" "Server is busy. Please try again."
          (some 503), .doneSentinel]
      askStreamCalls := 0, persisted := [], queryLogs := [], exc := none }
  else
    match startFrameEval env.messageId with
    | .error e =>
        -- the NameError propagates through the sole `finally` (semaphore
        -- release) and out of the generator
        { frames := [], askStreamCalls := 0, persisted := [], queryLogs := [],
          exc := some e }
    | .ok startF =>
        let st := attemptLoop cs model env.textId remaining promptToksEst env.attempts
          env.maxRetries (env.maxRetries + 1) 0 LoopState.initial
        let head := [startF, .textStart env.textId] ++ st.frames
        let failureLog : List (ℤ × Option String) :=
          if st.streamFailed ∧ st.lastErrorCode ≠ none ∧
              st.lastErrorCode ≠ some "budget_exceeded" then
            [(0, st.lastErrorCode)]
          else []
        if st.streamFailed then
          { frames := head ++ [.doneSentinel], askStreamCalls := st.asks,
            persisted := [], queryLogs := failureLog, exc := none }
        else if st.budgetExhausted then
          { frames := head ++ [.doneSentinel], askStreamCalls := st.asks,
            persisted := [], queryLogs := [], exc := none }
        else
          let afterText := head ++ [.textEnd env.textId]
          let citations :=
            match st.finalResp with
            | some c => (List.range c.numCitations).map SseEvent.sourceDoc
            | none => []
          let usage := st.finalResp.bind (·.usage)
          let promptToks :=
            match usage with
            | some u => orFalsyInt u.1 promptToksEst
            | none => promptToksEst
          let completionToks :=
            match usage with
            | some u => orFalsyInt u.2 st.completionToks
            | none =>
                if st.completionToks = 0 then
                  estimate_tokens_from_text (pyJoin st.parts)
                else st.completionToks
          let costResult := calc_query_cost cs model (some promptToks) (some completionToks)
          let overBudget :=
            if 0 < costResult.total_cost_micro then
              would_exceed_budget env.limitAtEnd env.spendAtEnd
                (microToUsd costResult.total_cost_micro)
            else false
          let assistantText := pyTrim (pyJoin st.parts)
          let persisted := if assistantText = "" then [] else [("assistant", assistantText)]
          let logs := [(costResult.total_cost_micro, (none : Option String))]
          if overBudget then
            let st' := sendErrorOnce st "budget_exceeded" "Monthly budget exceeded" 402
            let extraFrames := st'.frames.drop st.frames.length
            { frames := afterText ++ citations ++ extraFrames ++ [.doneSentinel]
              askStreamCalls := st.asks, persisted := persisted, queryLogs := logs,
              exc := none }
          else
            { frames := afterText ++ citations ++
                [.finish promptToks completionToks, .doneSentinel]
              askStreamCalls := st.asks, persisted := persisted, queryLogs := logs,
              exc := none }

/-- The full `chat_stream` endpoint: pre-stream phase, then on success the
streamed generator output; on a raised `HTTPException` an error response
with no frames, no upstream call and nothing persisted. -/
structure ChatOutcome where
  status : ℕ
  detail : Option String
  frames : List SseEvent
  askStreamCalls : ℕ
  persisted : List (String × String)
  queryLogs : List (ℤ × Option String)
  exc : Option PyErr
deriving Repr, DecidableEq

def chat_stream (cs : CostSettings) (inp : ChatInput) (env : StreamEnv) : ChatOutcome :=
  match chatPreStream cs inp with
  | .error e =>
      { status := e.1, detail := some e.2, frames := [], askStreamCalls := 0,
        persisted := [], queryLogs := [], exc := none }
  | .ok pre =>
      let g := generatorRun cs env pre.remaining pre.promptToksEst pre.model
      { status := 200, detail := none, frames := g.frames,
        askStreamCalls := g.askStreamCalls,
        persisted := pre.persistedUser ++ g.persisted,
        queryLogs := g.queryLogs, exc := g.exc }

/-! ## Concrete instances used by the claim theorems -/

/-- A pricing table used to exhibit that the two-stage rounding of
`calc_query_cost` (round each part, then round the sum of the rounded
parts) is observably different from a single rounding at the end. -/
def twoStageDemoSettings : CostSettings :=
  { MODEL_PRICING := [("demo-model", ⟨some (14/10), some (14/10), some 1⟩)]
    PRICE_PER_MTOK_INPUT := 1
    PRICE_PER_MTOK_OUTPUT := 1
    PRICE_PER_MTOK_INDEX := 1
    override_input := false
    override_output := false
    override_index := false
    BUDGET_HOLD_USD := 0
    DEFAULT_MODEL := "demo-model" }

/-- A chat request for a user whose spend is within one micro-dollar of the
limit: S + C = L exactly, yet the pre-check rejects. -/
def c5Input : ChatInput :=
  { userId := 7, rawSessionId := none, freshSessionId := "session-fresh", sessions := [],
    storesOk := true, storeIdForHistory := some 1, question := some "hi",
    userTextOverride := none, rateLimitOk := true, projectIdOk := true, tagsOk := true,
    metadataOk := true, modelRequested := some "gemini-2.5-flash",
    limit := some 1, spend := 999999/1000000 }

/-- A request whose session id names a session belonging to user 9, made by
user 7. -/
def c10Input : ChatInput :=
  { userId := 7, rawSessionId := some "sess-1", freshSessionId := "session-fresh10",
    sessions := [("sess-1", ⟨9, none, none⟩)],
    storesOk := true, storeIdForHistory := some 1, question := some "hi",
    userTextOverride := none, rateLimitOk := true, projectIdOk := true, tagsOk := true,
    metadataOk := true, modelRequested := some "gemini-2.5-flash",
    limit := none, spend := 0 }

def quietStreamEnv : StreamEnv :=
  { semAcquireOk := true, messageId := "msg-0", textId := "txt-0",
    attempts := fun _ => { chunks := [], ending := .completed },
    maxRetries := 2, limitAtEnd := none, spendAtEnd := 0 }

/-- A well-formed chat request that passes every pre-stream check (user 7,
no budget row, a one-chunk upstream script). -/
def c3Input : ChatInput :=
  { userId := 7, rawSessionId := none, freshSessionId := "session-fresh3", sessions := [],
    storesOk := true, storeIdForHistory := some 1, question := some "hi",
    userTextOverride := none, rateLimitOk := true, projectIdOk := true, tagsOk := true,
    metadataOk := true, modelRequested := some "gemini-2.5-flash",
    limit := none, spend := 0 }

def c3Env : StreamEnv :=
  { semAcquireOk := true, messageId := "msg-3", textId := "txt-3",
    attempts := fun _ =>
      { chunks := [⟨some "ok", true, some (some 3, some 2), 1⟩], ending := .completed },
    maxRetries := 2, limitAtEnd := none, spendAtEnd := 0 }

/-- A request by a user with a budget of 0.050001: the pre-check passes (the
remaining budget after the 0.05 hold is one micro-dollar) and the scripted
first delta costs several micro-dollars, so the circuit breaker ought to
fire on it. -/
def c4Input : ChatInput :=
  { userId := 7, rawSessionId := none, freshSessionId := "session-fresh4", sessions := [],
    storesOk := true, storeIdForHistory := some 1, question := some "hi",
    userTextOverride := none, rateLimitOk := true, projectIdOk := true, tagsOk := true,
    metadataOk := true, modelRequested := some "gemini-2.5-flash",
    limit := some (50001/1000000), spend := 0 }

def c4Env : StreamEnv :=
  { semAcquireOk := true, messageId := "msg-4", textId := "txt-4",
    attempts := fun _ =>
      { chunks := [⟨some "Hi!", true, some (some 0, some 0), 0⟩], ending := .completed },
    maxRetries := 2, limitAtEnd := some (50001/1000000), spendAtEnd := 0 }

def c1Store : StoreRow :=
  { id := 1, user_id := 7, fs_name := "fileSearchStores/store-1", deleted_at := none }

def c1Doc : Doc :=
  { id := 2, store_id := 1, filename := "a.pdf", display_name := some "a.pdf",
    size_bytes := 1000, status := .PENDING, status_updated_at := some 100,
    op_name := none, gemini_file_id := none, last_error := none, deleted_at := none,
    created_at := 100 }

/-- Upload succeeds with both handles; the first poll reports an
unrecoverable error payload. (`redact` is instantiated with the identity:
the path-redaction regex leaves "boom" unchanged.) -/
def c1Env : IngestEnv :=
  { upload := .ok (some "operations/abc") (some "files/xyz"), recovered_file_id := none,
    pollFuel := 5, polls := fun _ => .ok true (some "boom"), elapsedStr := "1.0" }

def c2Store : StoreRow :=
  { id := 1, user_id := 7, fs_name := "fileSearchStores/store-1", deleted_at := some 50 }

def c2Doc : Doc :=
  { id := 2, store_id := 1, filename := "a.pdf", display_name := some "a.pdf",
    size_bytes := 1000, status := .RUNNING, status_updated_at := some 100,
    op_name := some "operations/abc", gemini_file_id := some "files/xyz",
    last_error := none, deleted_at := none, created_at := 100 }

def quietIngestEnv : IngestEnv :=
  { upload := .ok (some "operations/x") (some "files/x"), recovered_file_id := none,
    pollFuel := 1, polls := fun _ => .ok true none, elapsedStr := "0.0" }

/-! ## General lemmas -/

/-- A strictly positive pre-rounding value is never quantized to zero: the
floor-guard in `_quantize` yields at least one micro-dollar. -/
theorem quantizeMicro_pos {v : ℚ} (hv : 0 < v) : 1 ≤ quantizeMicro v := by
  have h6 : (0 : ℚ) ≤ v * 1000000 := by positivity
  have hfl : (0 : ℤ) ≤ ⌊v * 1000000 + 1/2⌋ := by
    apply Int.floor_nonneg.mpr
    linarith
  show 1 ≤ (if 0 < v ∧ halfUpZ (v * 1000000) = 0 then 1 else halfUpZ (v * 1000000))
  rw [show halfUpZ (v * 1000000) = ⌊v * 1000000 + 1/2⌋ from if_pos h6]
  by_cases hz : ⌊v * 1000000 + 1/2⌋ = 0
  · rw [if_pos ⟨hv, hz⟩]
  · rw [if_neg (fun h => hz h.2)]
    omega

theorem fdiv_nonneg_of_pos {n : ℤ} (hn : 0 < n) {m : ℤ} (hm : 0 ≤ m) :
    0 ≤ Int.fdiv n m := Int.fdiv_nonneg (le_of_lt hn) hm

/-! ## Claim C9 (corrected)

The claim universally quantifies over every byte count, but
`estimate_tokens_from_bytes` returns 0 for any non-positive byte count
before looking at the MIME type, so a zero-byte image is mapped to 0, not
to the flat 1200. For positive byte counts the claimed branch values hold
and the result is never negative. -/

/-- C9 counterexample: a 0-byte file with an image MIME type returns 0
tokens, not the flat 1200 the claim requires for any image MIME type. -/
theorem claim_C9_counterexample :
    pyStartsWith (pyLower "image/png") "image/" = true
    ∧ estimate_tokens_from_bytes 0 (some "image/png") ≠ 1200
    ∧ estimate_tokens_from_bytes 0 (some "image/png") = 0 := by
  refine ⟨by decide, by decide, by decide⟩

/-- C9 (amended): for every positive byte count, an image MIME type yields a
flat 1200 tokens, an audio MIME type yields max(1000, bytes·10000/2^20), and
any other (or absent) MIME type yields bytes/4 floored; a non-positive byte
count yields 0 regardless of MIME type; the result is never negative. -/
theorem claim_C9_theorem (n : ℤ) (mime : Option String) :
    0 ≤ estimate_tokens_from_bytes n mime
    ∧ (n ≤ 0 → estimate_tokens_from_bytes n mime = 0)
    ∧ (0 < n → (pyLower (mime.getD "") ≠ "" ∧ pyStartsWith (pyLower (mime.getD "")) "image/" = true) →
        estimate_tokens_from_bytes n mime = 1200)
    ∧ (0 < n → ¬ (pyLower (mime.getD "") ≠ "" ∧ pyStartsWith (pyLower (mime.getD "")) "image/" = true)
        → (pyLower (mime.getD "") ≠ "" ∧ pyStartsWith (pyLower (mime.getD "")) "audio/" = true)
        → estimate_tokens_from_bytes n mime = max 1000 (Int.fdiv (n * 10000) (1024 * 1024)))
    ∧ (0 < n → ¬ (pyLower (mime.getD "") ≠ "" ∧ pyStartsWith (pyLower (mime.getD "")) "image/" = true)
        → ¬ (pyLower (mime.getD "") ≠ "" ∧ pyStartsWith (pyLower (mime.getD "")) "audio/" = true)
        → estimate_tokens_from_bytes n mime = Int.fdiv n 4) := by
  simp only [estimate_tokens_from_bytes]
  by_cases hn : n ≤ 0
  · refine ⟨by simp [hn], by simp [hn], ?_, ?_, ?_⟩ <;> intro h <;> omega
  · have hn' : 0 < n := by omega
    have hfd : 0 ≤ Int.fdiv n 4 := fdiv_nonneg_of_pos hn' (by norm_num)
    refine ⟨?_, by intro h; omega, ?_, ?_, ?_⟩
    · split_ifs with h1 h2
      · norm_num
      · exact le_max_of_le_left (by norm_num)
      · exact le_max_left 0 _
    · intro _ him
      rw [if_neg hn, if_pos him]
    · intro _ hni hau
      rw [if_neg hn, if_neg hni, if_pos hau]
    · intro _ hni hna
      rw [if_neg hn, if_neg hni, if_neg hna]
      omega

/-- C9 witness: the amended theorem applied at concrete inputs. -/
theorem claim_C9_witness :
    estimate_tokens_from_bytes 4096 (some "image/JPEG") = 1200
    ∧ estimate_tokens_from_bytes 2097152 (some "audio/mpeg") = 20000
    ∧ estimate_tokens_from_bytes 1000 (some "application/pdf") = 250
    ∧ estimate_tokens_from_bytes (-5) (some "image/png") = 0 := by
  refine ⟨?_, ?_, ?_, ?_⟩
  · exact (claim_C9_theorem 4096 (some "image/JPEG")).2.2.1 (by norm_num) (by decide)
  · have h := (claim_C9_theorem 2097152 (some "audio/mpeg")).2.2.2.1 (by norm_num)
      (by decide) (by decide)
    rw [h]; decide
  · have h := (claim_C9_theorem 1000 (some "application/pdf")).2.2.2.2 (by norm_num)
      (by decide) (by decide)
    rw [h]; decide
  · exact (claim_C9_theorem (-5) (some "image/png")).2.1 (by norm_num)

/-! ## Claim C8 (confirmed)

The watchdog sweep resets exactly the RUNNING, non-deleted documents of
non-deleted stores whose coalesced status timestamp is strictly older than
`now - TTL`, setting ERROR and clearing the operation handle; a document
exactly at the boundary is untouched, one second past it is reset. -/

/-- C8: characterization of the watchdog sweep, including both TTL boundary
cases. `ttlMinutes` is `WATCHDOG_TTL_MINUTES`; times are epoch seconds. -/
theorem claim_C8_theorem (now ttlMinutes : ℤ) (rows : List (Doc × StoreRow))
    (d : Doc) (s : StoreRow) (hmem : (d, s) ∈ rows) :
    resetStuckOne now ttlMinutes d s ∈ reset_stuck_documents now ttlMinutes rows
    ∧ (watchdogMatches now ttlMinutes d s = true ↔
        (d.status = .RUNNING ∧ d.status_updated_at.getD d.created_at < now - ttlMinutes * 60
          ∧ s.deleted_at = none ∧ d.deleted_at = none))
    ∧ (watchdogMatches now ttlMinutes d s = true →
        (resetStuckOne now ttlMinutes d s).status = .ERROR
        ∧ (resetStuckOne now ttlMinutes d s).op_name = none
        ∧ (resetStuckOne now ttlMinutes d s).status_updated_at = some now)
    ∧ (watchdogMatches now ttlMinutes d s = false → resetStuckOne now ttlMinutes d s = d)
    ∧ (d.status_updated_at.getD d.created_at = now - ttlMinutes * 60 →
        resetStuckOne now ttlMinutes d s = d)
    ∧ (d.status = .RUNNING ∧ s.deleted_at = none ∧ d.deleted_at = none
        ∧ d.status_updated_at.getD d.created_at = now - ttlMinutes * 60 - 1 →
        (resetStuckOne now ttlMinutes d s).status = .ERROR
        ∧ (resetStuckOne now ttlMinutes d s).op_name = none) := by
  have hiff : watchdogMatches now ttlMinutes d s = true ↔
      (d.status = .RUNNING ∧ d.status_updated_at.getD d.created_at < now - ttlMinutes * 60
        ∧ s.deleted_at = none ∧ d.deleted_at = none) := by
    unfold watchdogMatches
    simp [decide_eq_true_iff]
  refine ⟨?_, hiff, ?_, ?_, ?_, ?_⟩
  · exact List.mem_map_of_mem (fun r => resetStuckOne now ttlMinutes r.1 r.2) hmem
  · intro hm
    unfold resetStuckOne
    simp [hm, Doc.set_status]
  · intro hm
    unfold resetStuckOne
    simp [hm]
  · intro hts
    have hm : watchdogMatches now ttlMinutes d s = false := by
      rw [Bool.eq_false_iff]
      intro hc
      have := hiff.mp hc
      omega
    unfold resetStuckOne
    simp [hm]
  · rintro ⟨h1, h2, h3, h4⟩
    have hm : watchdogMatches now ttlMinutes d s = true := by
      rw [hiff]
      exact ⟨h1, by omega, h2, h3⟩
    unfold resetStuckOne
    simp [hm, Doc.set_status]

/-- C8 witness: the sweep resets a concrete document one second past the
60-minute TTL and leaves one exactly at the boundary untouched. -/
theorem claim_C8_witness :
    (resetStuckOne 10000 60 ⟨1, 1, "a.pdf", none, 100, .RUNNING, some (10000 - 3601), none, none, none, none, 50⟩
        ⟨1, 7, "fs-1", none⟩).status = .ERROR
    ∧ (resetStuckOne 10000 60 ⟨2, 1, "b.pdf", none, 100, .RUNNING, some (10000 - 3600), none, none, none, none, 50⟩
        ⟨1, 7, "fs-1", none⟩) =
      ⟨2, 1, "b.pdf", none, 100, .RUNNING, some (10000 - 3600), none, none, none, none, 50⟩ := by
  constructor
  · exact ((claim_C8_theorem 10000 60
      [(⟨1, 1, "a.pdf", none, 100, .RUNNING, some (10000 - 3601), none, none, none, none, 50⟩,
        ⟨1, 7, "fs-1", none⟩)] _ _ (by simp)).2.2.2.2.2
      ⟨rfl, rfl, rfl, by norm_num⟩).1
  · exact (claim_C8_theorem 10000 60
      [(⟨2, 1, "b.pdf", none, 100, .RUNNING, some (10000 - 3600), none, none, none, none, 50⟩,
        ⟨1, 7, "fs-1", none⟩)] _ _ (by simp)).2.2.2.2.1 (by norm_num)

/-! ## Claim C7 (confirmed): cost quantization -/

/-- C7: each cost part is tokens/10^6 times the per-million price rounded
half-up to six decimals, the total is the rounded sum of the two rounded
parts, a strictly positive pre-rounding part or total is never mapped to
zero (it is at least one micro-dollar), and two-stage rounding is not the
same as a single rounding at the end (demo pricing, one token each side:
parts of 1.4 micro round to 1 each, total 2, whereas rounding once would
give 3). -/
theorem claim_C7_theorem (s : CostSettings) (model : String) (pt ct : Option ℤ) :
    (calc_query_cost s model pt ct).prompt_cost_micro =
        quantizeMicro (((max (pt.getD 0) 0 : ℤ) : ℚ) / 1000000 *
          (resolve_model_rates s (some model)).input_price)
    ∧ (calc_query_cost s model pt ct).completion_cost_micro =
        quantizeMicro (((max (ct.getD 0) 0 : ℤ) : ℚ) / 1000000 *
          (resolve_model_rates s (some model)).output_price)
    ∧ (calc_query_cost s model pt ct).total_cost_micro =
        quantizeMicro (microToUsd (calc_query_cost s model pt ct).prompt_cost_micro +
          microToUsd (calc_query_cost s model pt ct).completion_cost_micro)
    ∧ (0 < ((max (pt.getD 0) 0 : ℤ) : ℚ) / 1000000 * (resolve_model_rates s (some model)).input_price →
        1 ≤ (calc_query_cost s model pt ct).prompt_cost_micro)
    ∧ (0 < ((max (ct.getD 0) 0 : ℤ) : ℚ) / 1000000 * (resolve_model_rates s (some model)).output_price →
        1 ≤ (calc_query_cost s model pt ct).completion_cost_micro)
    ∧ (0 < microToUsd (calc_query_cost s model pt ct).prompt_cost_micro +
          microToUsd (calc_query_cost s model pt ct).completion_cost_micro →
        1 ≤ (calc_query_cost s model pt ct).total_cost_micro)
    ∧ (calc_query_cost twoStageDemoSettings "demo-model" (some 1) (some 1)).total_cost_micro = 2
    ∧ quantizeMicro ((1 : ℚ) / 1000000 * (14/10) + (1 : ℚ) / 1000000 * (14/10)) = 3 := by
  have hr : resolve_model_rates twoStageDemoSettings (some "demo-model") =
      ⟨14/10, 14/10, 1⟩ := rfl
  refine ⟨rfl, rfl, rfl, ?_, ?_, ?_, ?_, ?_⟩
  · exact fun h => quantizeMicro_pos h
  · exact fun h => quantizeMicro_pos h
  · exact fun h => quantizeMicro_pos h
  · norm_num [QueryCostResult.total_cost_micro, calc_query_cost, hr, microToUsd,
      quantizeMicro, halfUpZ]
  · norm_num [quantizeMicro, halfUpZ]

/-- C7 witness: one token on each side under the shipped default pricing
gives strictly positive micro-dollar parts. -/
theorem claim_C7_witness :
    1 ≤ (calc_query_cost defaultSettings "gemini-2.5-flash" (some 1) (some 1)).prompt_cost_micro
    ∧ 1 ≤ (calc_query_cost defaultSettings "gemini-2.5-flash" (some 1) (some 1)).total_cost_micro := by
  have hr : resolve_model_rates defaultSettings (some "gemini-2.5-flash") =
      ⟨3/10, 25/10, 15/10000⟩ := rfl
  constructor
  · refine (claim_C7_theorem defaultSettings "gemini-2.5-flash" (some 1) (some 1)).2.2.2.1 ?_
    rw [hr]
    norm_num
  · refine (claim_C7_theorem defaultSettings "gemini-2.5-flash" (some 1) (some 1)).2.2.2.2.2.1 ?_
    have hp : (calc_query_cost defaultSettings "gemini-2.5-flash" (some 1) (some 1)).prompt_cost_micro
        = 1 := by
      norm_num [calc_query_cost, hr, quantizeMicro, halfUpZ]
    have hc : (calc_query_cost defaultSettings "gemini-2.5-flash" (some 1) (some 1)).completion_cost_micro
        = 3 := by
      norm_num [calc_query_cost, hr, quantizeMicro, halfUpZ]
    rw [hp, hc]
    norm_num [microToUsd]

/-! ## Claim C6 (confirmed): pricing key resolution -/

/-- Accumulator monotonicity of the longest-match scan: starting from a
candidate, the scan always returns a candidate at least as long. -/
theorem bestMatchGo_mono (key : String) :
    ∀ (mp : PricingTable) (b0 : String × PriceEntry),
      ∃ b, bestMatchGo key mp (some b0) = some b ∧ pyLen b0.1 ≤ pyLen b.1 := by
  intro mp
  induction mp with
  | nil => exact fun b0 => ⟨b0, rfl, le_refl _⟩
  | cons kv rest ih =>
      intro b0
      by_cases hd : kv.1 = "default"
      · simpa only [bestMatchGo, if_pos hd] using ih b0
      · by_cases hs : pyStartsWith key kv.1
        · by_cases hl : pyLen b0.1 < pyLen kv.1
          · obtain ⟨b, hb, hlen⟩ := ih kv
            exact ⟨b, by simp only [bestMatchGo, if_neg hd, hs, if_pos hl]; exact hb,
              le_trans (le_of_lt hl) hlen⟩
          · obtain ⟨b, hb, hlen⟩ := ih b0
            exact ⟨b, by simp only [bestMatchGo, if_neg hd, hs, if_neg hl]; exact hb, hlen⟩
        · obtain ⟨b, hb, hlen⟩ := ih b0
          refine ⟨b, ?_, hlen⟩
          simp only [bestMatchGo, if_neg hd]
          rw [if_neg (by simpa using hs)]
          exact hb

/-- Soundness of the longest-match scan: when every accumulator candidate is
a non-default key the model starts with, so is the result, and it comes from
the table or the accumulator. -/
theorem bestMatchGo_sound (key : String) :
    ∀ (mp : PricingTable) (acc : Option (String × PriceEntry)),
      (∀ b0, acc = some b0 → b0.1 ≠ "default" ∧ pyStartsWith key b0.1 = true) →
      ∀ b, bestMatchGo key mp acc = some b →
        (b.1 ≠ "default" ∧ pyStartsWith key b.1 = true) ∧ (b ∈ mp ∨ acc = some b) := by
  intro mp
  induction mp with
  | nil => exact fun acc hacc b hb => ⟨hacc b hb, Or.inr hb⟩
  | cons kv rest ih =>
      intro acc hacc b hb
      by_cases hd : kv.1 = "default"
      · have := ih acc hacc b (by simpa only [bestMatchGo, if_pos hd] using hb)
        exact ⟨this.1, this.2.elim (fun h => Or.inl (List.mem_cons_of_mem kv h)) Or.inr⟩
      · by_cases hs : pyStartsWith key kv.1
        · cases acc with
          | none =>
              have hstep : bestMatchGo key rest (some kv) = some b := by
                simpa only [bestMatchGo, if_neg hd, hs, if_true] using hb
              have := ih (some kv) (fun b0 h => by
                cases h
                exact ⟨hd, hs⟩) b hstep
              refine ⟨this.1, ?_⟩
              rcases this.2 with h | h
              · exact Or.inl (List.mem_cons_of_mem kv h)
              · cases h
                exact Or.inl (List.mem_cons_self kv rest)
          | some b0 =>
              have hacc0 := hacc b0 rfl
              by_cases hl : pyLen b0.1 < pyLen kv.1
              · have hstep : bestMatchGo key rest (some kv) = some b := by
                  simpa only [bestMatchGo, if_neg hd, hs, if_true, if_pos hl] using hb
                have := ih (some kv) (fun b1 h => by
                  cases h
                  exact ⟨hd, hs⟩) b hstep
                refine ⟨this.1, ?_⟩
                rcases this.2 with h | h
                · exact Or.inl (List.mem_cons_of_mem kv h)
                · cases h
                  exact Or.inl (List.mem_cons_self kv rest)
              · have hstep : bestMatchGo key rest (some b0) = some b := by
                  simpa only [bestMatchGo, if_neg hd, hs, if_true, if_neg hl] using hb
                have := ih (some b0) (fun b1 h => by
                  cases h
                  exact hacc0) b hstep
                refine ⟨this.1, ?_⟩
                rcases this.2 with h | h
                · exact Or.inl (List.mem_cons_of_mem kv h)
                · exact Or.inr h
        · have hstep : bestMatchGo key rest acc = some b := by
            have hb' := hb
            simp only [bestMatchGo, if_neg hd] at hb'
            rw [if_neg (by simpa using hs)] at hb'
            exact hb'
          have := ih acc hacc b hstep
          exact ⟨this.1, this.2.elim (fun h => Or.inl (List.mem_cons_of_mem kv h)) Or.inr⟩

/-- Maximality of the longest-match scan: every non-default key of the table
that the model starts with is no longer than the selected one. -/
theorem bestMatchGo_maximal (key : String) :
    ∀ (mp : PricingTable) (acc : Option (String × PriceEntry)) (kv : String × PriceEntry),
      kv ∈ mp → kv.1 ≠ "default" → pyStartsWith key kv.1 = true →
      ∃ b, bestMatchGo key mp acc = some b ∧ pyLen kv.1 ≤ pyLen b.1 := by
  intro mp
  induction mp with
  | nil => intro acc kv h; exact absurd h (List.not_mem_nil kv)
  | cons hd rest ih =>
      intro acc kv hmem hnd hsw
      rcases List.mem_cons.mp hmem with heq | htail
      · subst heq
        have hstep : ∃ c, bestMatchGo key (kv :: rest) acc = bestMatchGo key rest (some c)
            ∧ pyLen kv.1 ≤ pyLen c.1 := by
          cases acc with
          | none =>
              refine ⟨kv, ?_, le_refl _⟩
              simp only [bestMatchGo, if_neg hnd, hsw, if_true]
          | some b0 =>
              by_cases hl : pyLen b0.1 < pyLen kv.1
              · refine ⟨kv, ?_, le_refl _⟩
                simp only [bestMatchGo, if_neg hnd, hsw, if_true, if_pos hl]
              · refine ⟨b0, ?_, by omega⟩
                simp only [bestMatchGo, if_neg hnd, hsw, if_true, if_neg hl]
        obtain ⟨c, hc, hlen⟩ := hstep
        obtain ⟨b, hb, hlen2⟩ := bestMatchGo_mono key rest c
        refine ⟨b, ?_, le_trans hlen hlen2⟩
        rw [hc]
        exact hb
      · obtain ⟨b, hb, hlen⟩ := ih
          (if hd.1 = "default" then acc
           else if pyStartsWith key hd.1 then
             match acc with
             | none => some hd
             | some b => if pyLen b.1 < pyLen hd.1 then some hd else acc
           else acc) kv htail hnd hsw
        refine ⟨b, ?_, hlen⟩
        simpa only [bestMatchGo] using hb

/-- C6: rate resolution tries the exact model key first; failing that it
selects the longest registered non-default key the model string starts
with; failing that it falls back to the "default" entry (absent explicit
per-field overrides); and concretely "gemini-2.5-pro-002" against the
shipped table resolves from the "gemini-2.5-pro" entry, not "default". -/
theorem claim_C6_theorem (cs : CostSettings) (m : Option String) :
    (∀ e, pyTrim (m.getD "") ≠ "" →
        lookupEntry cs.MODEL_PRICING (pyTrim (m.getD "")) = some e →
        selectedRates cs.MODEL_PRICING (pyTrim (m.getD "")) = e)
    ∧ (∀ b, pyTrim (m.getD "") ≠ "" →
        lookupEntry cs.MODEL_PRICING (pyTrim (m.getD "")) = none →
        bestMatchKV cs.MODEL_PRICING (pyTrim (m.getD "")) = some b →
        selectedRates cs.MODEL_PRICING (pyTrim (m.getD "")) = b.2
        ∧ b ∈ cs.MODEL_PRICING ∧ b.1 ≠ "default"
        ∧ pyStartsWith (pyTrim (m.getD "")) b.1 = true
        ∧ ∀ kv ∈ cs.MODEL_PRICING, kv.1 ≠ "default" →
            pyStartsWith (pyTrim (m.getD "")) kv.1 = true → pyLen kv.1 ≤ pyLen b.1)
    ∧ (∀ de din dout didx, pyTrim (m.getD "") ≠ "" →
        lookupEntry cs.MODEL_PRICING (pyTrim (m.getD "")) = none →
        bestMatchKV cs.MODEL_PRICING (pyTrim (m.getD "")) = none →
        lookupEntry cs.MODEL_PRICING "default" = some de →
        de.input_price = some din → de.output_price = some dout → de.index_price = some didx →
        cs.override_input = false → cs.override_output = false → cs.override_index = false →
        resolve_model_rates cs m = ⟨din, dout, didx⟩)
    ∧ resolve_model_rates defaultSettings (some "gemini-2.5-pro-002") = ⟨125/100, 10, 15/10000⟩
    ∧ lookupEntry defaultModelPricing "gemini-2.5-pro-002" = none
    ∧ bestMatchKV defaultModelPricing "gemini-2.5-pro-002" =
        some ("gemini-2.5-pro", ⟨some (125/100), some 10, some (15/10000)⟩)
    ∧ ((125 : ℚ)/100 ≠ 3/10) := by
  refine ⟨?_, ?_, ?_, rfl, rfl, rfl, by norm_num⟩
  · intro e hk hl
    simp [selectedRates, hk, hl]
  · intro b hk hl hb
    have hsound := bestMatchGo_sound (pyTrim (m.getD "")) cs.MODEL_PRICING none
      (fun b0 h => by cases h) b hb
    refine ⟨by simp [selectedRates, hk, hl, hb], ?_, hsound.1.1, hsound.1.2, ?_⟩
    · rcases hsound.2 with h | h
      · exact h
      · cases h
    · intro kv hkv hnd hsw
      obtain ⟨b', hb', hlen⟩ := bestMatchGo_maximal (pyTrim (m.getD "")) cs.MODEL_PRICING
        none kv hkv hnd hsw
      have : b' = b := by
        have := hb.symm.trans hb'
        exact (Option.some_inj.mp this).symm
      rw [this] at hlen
      exact hlen
  · intro de din dout didx hk hl hbm hde hdin hdout hdidx hoi hoo hoid
    have hsel : selectedRates cs.MODEL_PRICING (pyTrim (m.getD "")) = PriceEntry.empty := by
      simp [selectedRates, hk, hl, hbm]
    simp only [resolve_model_rates, hsel, hde]
    simp [pickRate, PriceEntry.empty, hdin, hdout, hdidx, hoi, hoo, hoid]

/-- C6 witness: the shipped table applied through the theorem at the
concrete model string of the claim. -/
theorem claim_C6_witness :
    selectedRates defaultModelPricing "gemini-2.5-pro-002" =
      ⟨some (125/100), some 10, some (15/10000)⟩ := by
  have h := (claim_C6_theorem defaultSettings (some "gemini-2.5-pro-002")).2.1
    ("gemini-2.5-pro", ⟨some (125/100), some 10, some (15/10000)⟩)
    (by decide) rfl rfl
  exact h.1

/-! ## Claim C5 (corrected): budget rejection boundary

`would_exceed_budget` itself matches the claim, but the chat pre-check is
stricter than "rejected iff S + C > L": it also rejects whenever the
remaining budget `max(0, L - S)` is zero or does not strictly exceed the
configured hold (`BUDGET_HOLD_USD`, shipped default 0.05), and it compares
the estimated prompt cost against the remaining budget minus the hold. In
particular a request whose estimated cost keeps the monthly spend within the limit can
still be rejected, and the estimated prompt cost is never zero under the
shipped positive prices. -/

/-- C5 counterexample: with limit L = 1 and spend S = 0.999999, the
estimated request cost is C = 0.000001, so S + C = L (not over the limit
and `would_exceed_budget` agrees), yet the pre-stream phase rejects the
request with 402. -/
theorem claim_C5_counterexample :
    chatPreStream defaultSettings c5Input = .error (402, "Monthly budget exhausted")
    ∧ would_exceed_budget c5Input.limit c5Input.spend
        (microToUsd (calc_query_cost defaultSettings "gemini-2.5-flash"
          (some (estimate_tokens_from_text "hi")) (some 0)).total_cost_micro) = false
    ∧ c5Input.spend + microToUsd (calc_query_cost defaultSettings "gemini-2.5-flash"
          (some (estimate_tokens_from_text "hi")) (some 0)).total_cost_micro ≤ 1 := by
  have hr : resolve_model_rates defaultSettings (some "gemini-2.5-flash") =
      ⟨3/10, 25/10, 15/10000⟩ := rfl
  have ht : estimate_tokens_from_text "hi" = 1 := by decide
  have hc : (calc_query_cost defaultSettings "gemini-2.5-flash"
      (some (estimate_tokens_from_text "hi")) (some 0)).total_cost_micro = 1 := by
    rw [ht]
    norm_num [calc_query_cost, hr, quantizeMicro, halfUpZ, QueryCostResult.total_cost_micro,
      microToUsd]
  refine ⟨?_, ?_, ?_⟩
  · simp only [chatPreStream, c5Input]
    rw [if_neg (by simp)]
    rw [if_neg (by simp [optStrTruthy])]
    rw [if_neg (by decide)]
    rw [if_neg (by simp)]
    rw [if_neg (by simp)]
    rw [if_neg (by simp)]
    rw [if_neg (by simp)]
    rw [if_neg (by simp [optStrTruthy]; decide)]
    have h1 : ¬ (max 0 ((1 : ℚ) - 999999/1000000) ≤ 0) := by norm_num
    have h2 : (defaultSettings.BUDGET_HOLD_USD > 0) := by norm_num [defaultSettings]
    have h3 : (max 0 ((1 : ℚ) - 999999/1000000) ≤ defaultSettings.BUDGET_HOLD_USD) := by
      norm_num [defaultSettings]
    simp only [h1, h2, h3, if_true, if_false, if_neg, if_pos]
  · rw [hc]
    simp only [would_exceed_budget, c5Input]
    norm_num [microToUsd]
  · rw [hc]
    simp only [c5Input]
    norm_num [microToUsd]

/-- C5 (amended): `would_exceed_budget` returns true iff a budget row exists
and S + C strictly exceeds L; but the chat pre-check, for a request passing
all earlier validations, rejects with 402 exactly when a budget row exists
and (remaining = max(0, L - S) is ≤ 0, or remaining ≤ hold when the
configured hold is positive, or the estimated prompt cost exceeds remaining
minus the hold) — so a request with S + C ≤ L can still be rejected. -/
theorem claim_C5_theorem (cs : CostSettings) (inp : ChatInput)
    (limit : Option ℚ) (spend add : ℚ)
    (hstores : inp.storesOk = true)
    (hq : optStrTruthy inp.question = true)
    (hlen : pyLen (inp.question.getD "") ≤ 32000)
    (hrate : inp.rateLimitOk = true) (hproj : inp.projectIdOk = true)
    (htags : inp.tagsOk = true) (hmeta : inp.metadataOk = true)
    (hmodel : (if optStrTruthy inp.modelRequested then inp.modelRequested.getD ""
        else cs.DEFAULT_MODEL) ∈ allowedModels) :
    (would_exceed_budget limit spend add = true ↔ ∃ l, limit = some l ∧ spend + add > l)
    ∧ (chatPreStream cs inp = .error (402, "Monthly budget exhausted") ↔
        ∃ l, inp.limit = some l ∧
          (max 0 (l - inp.spend) ≤ 0
            ∨ (0 < cs.BUDGET_HOLD_USD ∧ max 0 (l - inp.spend) ≤ cs.BUDGET_HOLD_USD)
            ∨ microToUsd (calc_query_cost cs
                (if optStrTruthy inp.modelRequested then inp.modelRequested.getD ""
                 else cs.DEFAULT_MODEL)
                (some (estimate_tokens_from_text (inp.question.getD ""))) (some 0)).total_cost_micro
              > max 0 (l - inp.spend) -
                  (if 0 < cs.BUDGET_HOLD_USD then cs.BUDGET_HOLD_USD else 0))) := by
  constructor
  · cases limit with
    | none => simp [would_exceed_budget]
    | some l =>
        simp only [would_exceed_budget, decide_eq_true_eq]
        constructor
        · intro h
          exact ⟨l, rfl, h⟩
        · rintro ⟨l', heq, h⟩
          cases heq
          exact h
  · simp only [chatPreStream, MAX_QUESTION_LENGTH]
    rw [if_neg (by simp [hstores])]
    rw [if_neg (by simp [hq])]
    rw [if_neg (by omega)]
    rw [if_neg (by simp [hrate])]
    rw [if_neg (by simp [hproj])]
    rw [if_neg (by simp [htags])]
    rw [if_neg (by simp [hmeta])]
    rw [if_neg (by simpa using hmodel)]
    cases hlim : inp.limit with
    | none =>
        simp only [Option.elim]
        constructor
        · intro h
          exfalso
          split_ifs at h <;> simp_all
        · rintro ⟨l, heq, _⟩
          cases heq
    | some l =>
        have hiota : (match (some l : Option ℚ) with
            | none => (Except.ok none : Except (ℕ × String) (Option ℚ))
            | some l =>
              if max 0 (l - inp.spend) ≤ 0 then .error (402, "Monthly budget exhausted")
              else if cs.BUDGET_HOLD_USD > 0 then
                if max 0 (l - inp.spend) ≤ cs.BUDGET_HOLD_USD then
                  .error (402, "Monthly budget exhausted")
                else .ok (some (max 0 (l - inp.spend) - cs.BUDGET_HOLD_USD))
              else .ok (some (max 0 (l - inp.spend)))) =
            (if max 0 (l - inp.spend) ≤ 0 then .error (402, "Monthly budget exhausted")
             else if cs.BUDGET_HOLD_USD > 0 then
               if max 0 (l - inp.spend) ≤ cs.BUDGET_HOLD_USD then
                 .error (402, "Monthly budget exhausted")
               else .ok (some (max 0 (l - inp.spend) - cs.BUDGET_HOLD_USD))
             else .ok (some (max 0 (l - inp.spend)))) := rfl
        rw [hiota]
        by_cases h1 : max 0 (l - inp.spend) ≤ 0
        · rw [if_pos h1]
          constructor
          · intro _
            exact ⟨l, rfl, Or.inl h1⟩
          · intro _
            rfl
        · rw [if_neg h1]
          by_cases h2 : cs.BUDGET_HOLD_USD > 0
          · rw [if_pos h2]
            by_cases h3 : max 0 (l - inp.spend) ≤ cs.BUDGET_HOLD_USD
            · rw [if_pos h3]
              constructor
              · intro _
                exact ⟨l, rfl, Or.inr (Or.inl ⟨h2, h3⟩)⟩
              · intro _
                rfl
            · rw [if_neg h3]
              simp only [Option.elim, decide_eq_true_eq]
              by_cases h4 : microToUsd (calc_query_cost cs
                  (if optStrTruthy inp.modelRequested then inp.modelRequested.getD ""
                   else cs.DEFAULT_MODEL)
                  (some (estimate_tokens_from_text (inp.question.getD ""))) (some 0)).total_cost_micro
                  > max 0 (l - inp.spend) - cs.BUDGET_HOLD_USD
              · rw [if_pos h4]
                constructor
                · intro _
                  refine ⟨l, rfl, Or.inr (Or.inr ?_)⟩
                  rw [if_pos h2]
                  exact h4
                · intro _
                  rfl
              · rw [if_neg h4]
                constructor
                · intro h
                  exfalso
                  split_ifs at h <;> simp_all
                · rintro ⟨l2, heq, hcase⟩
                  cases heq
                  rcases hcase with h | ⟨_, h⟩ | h
                  · exact absurd h h1
                  · exact absurd h h3
                  · rw [if_pos h2] at h
                    exact absurd h h4
          · rw [if_neg h2]
            simp only [Option.elim, decide_eq_true_eq]
            by_cases h4 : microToUsd (calc_query_cost cs
                (if optStrTruthy inp.modelRequested then inp.modelRequested.getD ""
                 else cs.DEFAULT_MODEL)
                (some (estimate_tokens_from_text (inp.question.getD ""))) (some 0)).total_cost_micro
                > max 0 (l - inp.spend)
            · rw [if_pos h4]
              constructor
              · intro _
                refine ⟨l, rfl, Or.inr (Or.inr ?_)⟩
                rw [if_neg h2]
                simpa using h4
              · intro _
                rfl
            · rw [if_neg h4]
              constructor
              · intro h
                exfalso
                split_ifs at h <;> simp_all
              · rintro ⟨l2, heq, hcase⟩
                cases heq
                rcases hcase with h | ⟨hh, _⟩ | h
                · exact absurd h h1
                · exact absurd hh h2
                · rw [if_neg h2, sub_zero] at h
                  exact absurd h h4

/-- C5 witness: the amended characterization applied to the concrete
near-exhausted-budget request, which is rejected even though S + C = L. -/
theorem claim_C5_witness :
    chatPreStream defaultSettings c5Input = .error (402, "Monthly budget exhausted")
    ∧ would_exceed_budget (some 1) (999999/1000000) (1/1000000) = false := by
  have h := claim_C5_theorem defaultSettings c5Input (some 1) (999999/1000000) (1/1000000)
    (by simp [c5Input]) (by simp [c5Input, optStrTruthy]) (by decide)
    (by simp [c5Input]) (by simp [c5Input]) (by simp [c5Input]) (by simp [c5Input])
    (by simp [c5Input, optStrTruthy]; decide)
  constructor
  · refine h.2.mpr ⟨1, rfl, Or.inr (Or.inl ⟨by norm_num [defaultSettings], ?_⟩)⟩
    show max 0 ((1 : ℚ) - c5Input.spend) ≤ defaultSettings.BUDGET_HOLD_USD
    norm_num [c5Input, defaultSettings]
  · have hwe := h.1
    rw [Bool.eq_false_iff]
    intro hcon
    obtain ⟨l, heq, hgt⟩ := hwe.mp hcon
    cases heq
    norm_num at hgt

/-! ## Claim C10 (confirmed): cross-tenant session id fails 404 pre-stream -/

/-- C10: when the request reaches the session step (all earlier validations
pass) and the supplied session id names an existing ChatSession row whose
integer user id differs from the caller, the request fails with 404 during
the pre-stream phase; the response then carries no SSE frames, no
`ask_stream` call is made and nothing is persisted — and in general every
pre-stream error yields a frame-less, call-less, persist-less response. -/
theorem claim_C10_theorem (cs : CostSettings) (inp : ChatInput) (env : StreamEnv)
    (kv : String × SessionRow)
    (hstores : inp.storesOk = true)
    (hq : optStrTruthy inp.question = true)
    (hlen : pyLen (inp.question.getD "") ≤ 32000)
    (hrate : inp.rateLimitOk = true) (hproj : inp.projectIdOk = true)
    (htags : inp.tagsOk = true) (hmeta : inp.metadataOk = true)
    (hmodel : (if optStrTruthy inp.modelRequested then inp.modelRequested.getD ""
        else cs.DEFAULT_MODEL) ∈ allowedModels)
    (hlim : inp.limit = none)
    (hfind : inp.sessions.find? (fun r =>
        r.1 = sanitize_session_id inp.freshSessionId inp.rawSessionId) = some kv)
    (huser : kv.2.user_id ≠ inp.userId) :
    chatPreStream cs inp = .error (404, "Session not found")
    ∧ chat_stream cs inp env =
        { status := 404, detail := some "Session not found", frames := [],
          askStreamCalls := 0, persisted := [], queryLogs := [], exc := none }
    ∧ (∀ (inp' : ChatInput) (e : ℕ × String), chatPreStream cs inp' = .error e →
        (chat_stream cs inp' env).frames = [] ∧ (chat_stream cs inp' env).askStreamCalls = 0
        ∧ (chat_stream cs inp' env).persisted = []) := by
  have hpre : chatPreStream cs inp = .error (404, "Session not found") := by
    simp only [chatPreStream, MAX_QUESTION_LENGTH, hlim]
    rw [if_neg (by simp [hstores])]
    rw [if_neg (by simp [hq])]
    rw [if_neg (by omega)]
    rw [if_neg (by simp [hrate])]
    rw [if_neg (by simp [hproj])]
    rw [if_neg (by simp [htags])]
    rw [if_neg (by simp [hmeta])]
    rw [if_neg (by simpa using hmodel)]
    simp [hfind, huser]
  refine ⟨hpre, ?_, ?_⟩
  · simp [chat_stream, hpre]
  · intro inp' e he
    simp [chat_stream, he]

/-- C10 witness: the theorem applied to the concrete cross-tenant request. -/
theorem claim_C10_witness :
    chatPreStream defaultSettings c10Input = .error (404, "Session not found")
    ∧ (chat_stream defaultSettings c10Input quietStreamEnv).frames = []
    ∧ (chat_stream defaultSettings c10Input quietStreamEnv).persisted = [] := by
  have h := claim_C10_theorem defaultSettings c10Input quietStreamEnv ("sess-1", ⟨9, none, none⟩)
    (by simp [c10Input]) (by simp [c10Input, optStrTruthy]) (by decide)
    (by simp [c10Input]) (by simp [c10Input]) (by simp [c10Input]) (by simp [c10Input])
    (by simp [c10Input, optStrTruthy]; decide) (by simp [c10Input]) (by decide) (by decide)
  refine ⟨h.1, ?_, ?_⟩
  · rw [h.2.1]
  · rw [h.2.1]

/-! ## Claim C3 (code_bug): the generator raises NameError past its boundary

`request_id` is used in the start/text-start/text-delta frame payloads
(chat.py lines 534, 536, 619) but is bound nowhere — not in `chat_stream`,
not at module scope, not a builtin — so every stream that acquires the
semaphore raises `NameError` while building the very first frame, before
any frame (error frame or the `[DONE]` sentinel) is emitted. Only the
capacity-timeout path, which returns before line 534, still emits its error
frame and `[DONE]`. -/

/-- C3: on a request that passes the pre-stream phase and acquires the
semaphore, the generator terminates with the NameError escaping its
boundary, emitting no frames at all — neither an error frame nor the
"[DONE]" sentinel — while the capacity path (semaphore timeout) does emit
its error frame followed by "[DONE]". -/
theorem claim_C3_theorem :
    (chat_stream defaultSettings c3Input c3Env).exc = some (.nameError "request_id")
    ∧ (chat_stream defaultSettings c3Input c3Env).frames = []
    ∧ SseEvent.doneSentinel ∉ (chat_stream defaultSettings c3Input c3Env).frames
    ∧ (chat_stream defaultSettings c3Input c3Env).askStreamCalls = 0
    ∧ (generatorRun defaultSettings { c3Env with semAcquireOk := false } none 1
          "gemini-2.5-flash").frames =
        [.errorFrame "stream_capacity_exceeded" "Server is busy. Please try again." (some 503),
          .doneSentinel] := by
  refine ⟨?_, ?_, ?_, ?_, ?_⟩ <;> decide

/-! ## Claim C4 (code_bug): the mid-stream budget circuit breaker is dead code

The breaker at chat.py lines 601-618 is correct in isolation, but it sits
after the start frame of line 534, which raises `NameError` on the unbound
`request_id`. A stream with an established remaining budget whose first
text delta would blow past it therefore emits neither any text-delta frame,
nor the budget-exceeded error frame, nor "[DONE]": the generator dies
first. -/

/-- C4: the pre-stream phase establishes a remaining budget of one
micro-dollar, the projected cost at the first scripted text delta exceeds
it (so the trigger condition of the claim holds), yet the stream emits no
budget-exceeded frame and no "[DONE]" — it emits nothing and raises
NameError instead. -/
theorem claim_C4_theorem :
    chatPreStream defaultSettings c4Input =
      .ok { sessionId := "session-fresh4", model := "gemini-2.5-flash", promptToksEst := 1,
            remaining := some (max 0 ((50001 : ℚ)/1000000 - 0) - 5/100),
            persistedUser := [("user", "hi")] }
    ∧ max 0 ((50001 : ℚ)/1000000 - 0) - 5/100 = 1/1000000
    ∧ microToUsd (calc_query_cost defaultSettings "gemini-2.5-flash" (some 1)
          (some (estimate_tokens_from_text "Hi!"))).total_cost_micro > (1 : ℚ)/1000000
    ∧ (chat_stream defaultSettings c4Input c4Env).exc = some (.nameError "request_id")
    ∧ (chat_stream defaultSettings c4Input c4Env).frames = [] := by
  have hr : resolve_model_rates defaultSettings (some "gemini-2.5-flash") =
      ⟨3/10, 25/10, 15/10000⟩ := rfl
  have hpre : chatPreStream defaultSettings c4Input =
      .ok { sessionId := "session-fresh4", model := "gemini-2.5-flash", promptToksEst := 1,
            remaining := some (max 0 ((50001 : ℚ)/1000000 - 0) - 5/100),
            persistedUser := [("user", "hi")] } := by
    simp only [chatPreStream, c4Input]
    rw [if_neg (by simp)]
    rw [if_neg (by simp [optStrTruthy])]
    rw [if_neg (by decide)]
    rw [if_neg (by simp)]
    rw [if_neg (by simp)]
    rw [if_neg (by simp)]
    rw [if_neg (by simp)]
    rw [if_neg (by simp [optStrTruthy]; decide)]
    have h1 : ¬ (max 0 ((50001 : ℚ)/1000000 - 0) ≤ 0) := by norm_num
    have h2 : (defaultSettings.BUDGET_HOLD_USD > 0) := by norm_num [defaultSettings]
    have h3 : ¬ (max 0 ((50001 : ℚ)/1000000 - 0) ≤ defaultSettings.BUDGET_HOLD_USD) := by
      norm_num [defaultSettings]
    have hB : defaultSettings.BUDGET_HOLD_USD = 5/100 := rfl
    have hcost : ¬ (microToUsd (calc_query_cost defaultSettings "gemini-2.5-flash"
        (some (estimate_tokens_from_text "hi")) (some 0)).total_cost_micro >
          max 0 ((50001 : ℚ)/1000000 - 0) - defaultSettings.BUDGET_HOLD_USD) := by
      have ht : estimate_tokens_from_text "hi" = 1 := by decide
      rw [ht]
      norm_num [calc_query_cost, hr, quantizeMicro, halfUpZ, QueryCostResult.total_cost_micro,
        microToUsd, hB]
    rw [if_neg h1, if_pos h2, if_neg h3]
    simp only [Option.elim, decide_eq_true_eq]
    simp only [show (if optStrTruthy (some "gemini-2.5-flash") = true then
        (some "gemini-2.5-flash").getD "" else defaultSettings.DEFAULT_MODEL) = "gemini-2.5-flash"
      from by decide,
      show (some "hi").getD "" = "hi" from rfl]
    rw [if_neg hcost]
    rw [if_neg (by decide)]
    have ht2 : estimate_tokens_from_text "hi" = 1 := by decide
    simp [sanitize_session_id, optStrTruthy, ht2, hB]
  refine ⟨hpre, by norm_num, ?_, ?_, ?_⟩
  · have ht : estimate_tokens_from_text "Hi!" = 1 := by decide
    rw [ht]
    norm_num [calc_query_cost, hr, quantizeMicro, halfUpZ, QueryCostResult.total_cost_micro,
      microToUsd]
  · simp [chat_stream, hpre, generatorRun, startFrameEval, c4Env]
  · simp [chat_stream, hpre, generatorRun, startFrameEval, c4Env]

/-! ## Claim C1 (corrected): the compensating delete does not fire on poll failures

Poll failures are caught by the inner handlers around
`_wait_for_operation_completion` (ingestion.py lines 271-298), which mark
the document ERROR and commit without ever reaching the outer handler; the
compensating `delete_document_from_store` call (line 322) runs only for
exceptions that escape the main body, such as an upload that returned a
file id but no operation handle. -/

/-- C1 counterexample: the job persists file id "files/xyz", then polling
fails with an unrecoverable error; the document is marked ERROR but
`delete_document_from_store` is never invoked. -/
theorem claim_C1_counterexample :
    (run_ingestion_sync defaultSettings id 1 2 200 ⟨[c1Doc], [c1Store]⟩ c1Env).2.remote_deletes = []
    ∧ (run_ingestion_sync defaultSettings id 1 2 200 ⟨[c1Doc], [c1Store]⟩ c1Env).1 =
        some { c1Doc with
                 status := .ERROR
                 status_updated_at := some 200
                 op_name := some "operations/abc"
                 gemini_file_id := some "files/xyz"
                 last_error := some "boom" }
    ∧ (run_ingestion_sync defaultSettings id 1 2 200 ⟨[c1Doc], [c1Store]⟩ c1Env).2.upload_calls = 1 := by
  refine ⟨?_, ?_, ?_⟩ <;> decide

/-- C1 (amended): after a successful upload persisted the operation name
and file id, a polling failure or timeout is handled inside the job — the
document ends ERROR with the sanitized error text and the remote delete is
NOT invoked; the remote delete fires only when an exception escapes the
main body, e.g. when the upload returned a file id but no operation name. -/
theorem claim_C1_theorem (cs : CostSettings) (redact : String → String)
    (store_id document_id now : ℤ) (db : IngestDB) (env : IngestEnv)
    (doc : Doc) (store : StoreRow) (opn fid e : String)
    (hdoc : db.docs.find? (fun d => d.id = document_id) = some doc)
    (hdel : doc.deleted_at = none)
    (hstore : db.stores.find? (fun st => st.id = store_id) = some store)
    (hsdel : store.deleted_at = none)
    (hsid : store.id = doc.store_id)
    (hst : doc.status = .PENDING)
    (hop : doc.op_name = none)
    (hgem : doc.gemini_file_id = none)
    (hopn : opn ≠ "" ∧ pyLen opn ≤ 255)
    (hfid : fid ≠ "" ∧ pyLen fid ≤ 255) :
    (env.upload = .ok (some opn) (some fid) → wait_for_operation_completion env = .failed e →
      (run_ingestion_sync cs redact store_id document_id now db env).1 =
        some { doc with
                 status := .ERROR
                 status_updated_at := some now
                 op_name := some opn
                 gemini_file_id := some fid
                 last_error := some (sanitizeError redact e) }
      ∧ (run_ingestion_sync cs redact store_id document_id now db env).2.remote_deletes = []
      ∧ (run_ingestion_sync cs redact store_id document_id now db env).2.upload_calls = 1)
    ∧ (env.upload = .ok (some opn) (some fid) → wait_for_operation_completion env = .timedOut →
      ((run_ingestion_sync cs redact store_id document_id now db env).1.map (·.status))
          = some .ERROR
      ∧ (run_ingestion_sync cs redact store_id document_id now db env).2.remote_deletes = []
      ∧ ((run_ingestion_sync cs redact store_id document_id now db env).1.bind (·.gemini_file_id))
          = some fid)
    ∧ (env.upload = .ok none (some fid) →
      (run_ingestion_sync cs redact store_id document_id now db env).2.remote_deletes =
        [(store.fs_name, doc.id, doc.filename, some fid)]
      ∧ ((run_ingestion_sync cs redact store_id document_id now db env).1.map (·.status))
          = some .ERROR) := by
  have hfidtrim : (if pyLen fid > 255 then pyTake fid 255 else fid) = fid := by
    rw [if_neg (by omega)]
  have hopntrim : (if 255 < pyLen opn then some (pyTake opn 255) else some opn) = some opn := by
    rw [if_neg (by omega)]
  refine ⟨?_, ?_, ?_⟩
  · intro hup hwait
    simp only [run_ingestion_sync, hdoc, hdel, hstore, hsdel, hsid, hst, hop, hgem, hup,
      Doc.set_status, optStrTruthy, ingestPollPhase, wait_for_operation_completion] at *
    simp only [hwait]
    simp [hopn.1, hfid.1, hfidtrim, hopntrim, IngestEffects.base]
  · intro hup hwait
    simp only [run_ingestion_sync, hdoc, hdel, hstore, hsdel, hsid, hst, hop, hgem, hup,
      Doc.set_status, optStrTruthy, ingestPollPhase, wait_for_operation_completion] at *
    simp only [hwait]
    simp [hopn.1, hfid.1, hfidtrim, hopntrim, IngestEffects.base]
  · intro hup
    simp only [run_ingestion_sync, hdoc, hdel, hstore, hsdel, hsid, hst, hop, hgem, hup,
      Doc.set_status, optStrTruthy, ingestOuterHandler] at *
    simp [hfid.1, hfidtrim, IngestEffects.base]

/-- C1 witness: the amended theorem applied to the concrete failing-poll run
and to the missing-operation-name run. -/
theorem claim_C1_witness :
    ((run_ingestion_sync defaultSettings id 1 2 200 ⟨[c1Doc], [c1Store]⟩ c1Env).2.remote_deletes = []
      ∧ (run_ingestion_sync defaultSettings id 1 2 200 ⟨[c1Doc], [c1Store]⟩
          { c1Env with upload := .ok none (some "files/xyz") }).2.remote_deletes =
        [("fileSearchStores/store-1", 2, "a.pdf", some "files/xyz")]) := by
  have h1 := claim_C1_theorem defaultSettings id 1 2 200 ⟨[c1Doc], [c1Store]⟩ c1Env
    c1Doc c1Store "operations/abc" "files/xyz" "boom"
    (by decide) rfl (by decide) rfl rfl rfl rfl rfl (by decide) (by decide)
  have h2 := claim_C1_theorem defaultSettings id 1 2 200 ⟨[c1Doc], [c1Store]⟩
    { c1Env with upload := .ok none (some "files/xyz") }
    c1Doc c1Store "operations/abc" "files/xyz" "boom"
    (by decide) rfl (by decide) rfl rfl rfl rfl rfl (by decide) (by decide)
  exact ⟨(h1.1 rfl (by decide)).2.1, (h2.2.2 rfl).1⟩

/-! ## Claim C2 (corrected): the heartbeat guard holds only past the store guard

The store guard (ingestion.py lines 173-179) runs before the
operation-handle guard: a document with a recorded handle and status
RUNNING or DONE whose store has been soft-deleted (or is missing or
mismatched) is marked ERROR — its status does change. When the store checks
pass, the guard behaves exactly as claimed: no upload, status and handle
unchanged, timestamp refreshed. -/

/-- C2 counterexample: a document with a non-null operation handle and
status RUNNING, whose store is soft-deleted, is re-run: the job does not
upload, but it changes the status to ERROR — the claimed frame condition
(status unchanged, only the timestamp refreshed) is violated. -/
theorem claim_C2_counterexample :
    c2Doc.op_name ≠ none
    ∧ c2Doc.status = .RUNNING
    ∧ ((run_ingestion_sync defaultSettings id 1 2 200 ⟨[c2Doc], [c2Store]⟩
        quietIngestEnv).1.map (·.status)) = some .ERROR
    ∧ ((run_ingestion_sync defaultSettings id 1 2 200 ⟨[c2Doc], [c2Store]⟩
        quietIngestEnv).1.bind (·.last_error)) = some "Store missing or deleted"
    ∧ (run_ingestion_sync defaultSettings id 1 2 200 ⟨[c2Doc], [c2Store]⟩
        quietIngestEnv).2.upload_calls = 0 := by
  refine ⟨?_, ?_, ?_, ?_, ?_⟩ <;> decide

/-- C2 (amended): for every document with a non-null (truthy) operation
handle and status RUNNING or DONE that is not soft-deleted and whose store
exists, is not soft-deleted and matches, re-running the job performs no
upload, no remote delete, and leaves the document unchanged except for the
refreshed status-changed timestamp. -/
theorem claim_C2_theorem (cs : CostSettings) (redact : String → String)
    (store_id document_id now : ℤ) (db : IngestDB) (env : IngestEnv)
    (doc : Doc) (store : StoreRow)
    (hdoc : db.docs.find? (fun d => d.id = document_id) = some doc)
    (hdel : doc.deleted_at = none)
    (hstore : db.stores.find? (fun st => st.id = store_id) = some store)
    (hsdel : store.deleted_at = none)
    (hsid : store.id = doc.store_id)
    (hop : optStrTruthy doc.op_name = true)
    (hst : doc.status = .RUNNING ∨ doc.status = .DONE) :
    (run_ingestion_sync cs redact store_id document_id now db env).1 =
      some { doc with status_updated_at := some now }
    ∧ (run_ingestion_sync cs redact store_id document_id now db env).2 = IngestEffects.base := by
  have hguard3 : ¬ (doc.status = .DONE ∧ ¬ optStrTruthy doc.op_name) := by
    rintro ⟨_, hno⟩
    exact hno hop
  have hguard4 : optStrTruthy doc.op_name ∧ (doc.status = .RUNNING ∨ doc.status = .DONE) :=
    ⟨hop, hst⟩
  constructor <;>
    simp [run_ingestion_sync, hdoc, hdel, hstore, hsdel, hsid, hguard3, hguard4,
      Doc.touch_status]

/-- C2 witness: a concrete RUNNING document with a recorded handle and a
live store gets only its heartbeat refreshed. -/
theorem claim_C2_witness :
    (run_ingestion_sync defaultSettings id 1 2 200
        ⟨[c2Doc], [c1Store]⟩ quietIngestEnv).1 =
      some { c2Doc with status_updated_at := some 200 }
    ∧ (run_ingestion_sync defaultSettings id 1 2 200
        ⟨[c2Doc], [c1Store]⟩ quietIngestEnv).2 = IngestEffects.base := by
  exact claim_C2_theorem defaultSettings id 1 2 200 ⟨[c2Doc], [c1Store]⟩ quietIngestEnv
    c2Doc c1Store (by decide) rfl (by decide) rfl rfl (by decide) (Or.inl rfl)

end RagFoundation
